import Mathlib

/-!
# Mensageiro do Bem — verification of the client/proxy boundary

A shallow embedding of the repository's decision logic:

* `src/api/gemini-proxy.ts` (first document): the deployed Vercel proxy
  handler — envelope validation, the `getSuggestions` route (Gemini text
  provider), the `generateImage` route (Stable Horde with a bounded
  status-poll loop), and the try/catch error normalisation.
* the client service layer (`callProxy`, `getGreetingSuggestions`,
  `generateImageFromMessage`).
* the client form controller in `src/App.tsx` (`handleGetSuggestions`,
  `handleGenerateImage`, `handleAddContact`, `handleImportContacts`,
  `handleRemoveContact`).

Network and platform effects (fetch, the Gemini SDK, `JSON.parse`,
base64 encoding) are modelled as oracle fields of a world record: each
field gives the outcome of the corresponding awaited call as a function
of the data the code sends into it.  Thrown JavaScript errors are
modelled as `Except.error` carrying the error message.
-/

namespace GoodVibes

/-! ## JSON values -/

/-- A parsed JSON value, as produced by `JSON.parse` / `response.json()`. -/
inductive Json where
  | null
  | bool (b : Bool)
  | num (n : Int)
  | str (s : String)
  | arr (elems : List Json)
  | obj (fields : List (String × Json))

/-- JavaScript truthiness of a JSON value (`null`, `false`, `0` and the
empty string are falsy; arrays and objects are always truthy). -/
def Json.jsTruthy : Json → Bool
  | .null => false
  | .bool b => b
  | .num n => n != 0
  | .str s => s != ""
  | .arr _ => true
  | .obj _ => true

/-- `Array.isArray`. -/
def Json.isArr : Json → Bool
  | .arr _ => true
  | _ => false

/-- Property access `data.key`: the field when the value is an object that
has it, otherwise `undefined` (modelled as `null`, which is equally
falsy). -/
def Json.getField : Json → String → Json
  | .obj fields, key => match fields.lookup key with
    | some v => v
    | none => .null
  | _, _ => .null

mutual

/-- JavaScript `String(x)` coercion of a JSON value (used when a thrown
`new Error(x)` receives a non-string argument). -/
def Json.jsString : Json → String
  | .null => "null"
  | .bool b => cond b "true" "false"
  | .num n => toString n
  | .str s => s
  | .arr elems => Json.jsStringSep elems
  | .obj _ => "[object Object]"

/-- Comma-joined coercion of an array's elements (`Array.prototype.toString`). -/
def Json.jsStringSep : List Json → String
  | [] => ""
  | [x] => Json.jsString x
  | x :: xs => Json.jsString x ++ "," ++ Json.jsStringSep xs

end

/-! ## JavaScript string helpers -/

/-- Truthiness of an optional environment/string value: `undefined` and the
empty string are falsy, every other string is truthy. -/
def jsTruthyStr : Option String → Bool
  | none => false
  | some s => s != ""

/-- `x || dflt` on an optional string: the string when truthy, else the
default. -/
def jsOrDefault (v : Option String) (dflt : String) : String :=
  match v with
  | some s => if s != "" then s else dflt
  | none => dflt

/-- Interpolation of a possibly-undefined string into a template literal
(JavaScript renders `undefined` as the text "undefined"). -/
def tmpl : Option String → String
  | some s => s
  | none => "undefined"

/-- Does `pat` match the start of `l` character by character? -/
def runMatchesAt (pat l : List Char) : Bool :=
  match pat, l with
  | [], _ => true
  | _ :: _, [] => false
  | p :: ps, c :: cs => p == c && runMatchesAt ps cs

/-- Does `pat` occur as a contiguous run inside `l`? -/
def hasRun (pat l : List Char) : Bool :=
  match l with
  | [] => runMatchesAt pat []
  | _ :: cs => runMatchesAt pat l || hasRun pat cs

/-- `String.prototype.includes`: does `pat` occur inside `s`? -/
def strIncludes (s pat : String) : Bool :=
  hasRun pat.data s.data

/-! ## HTTP shapes -/

/-- A response sent by the proxy: `response.status(n).json(body)`. -/
structure HttpResponse where
  status : Nat
  body : Json

/-- The `{error: msg}` JSON body used for every error response. -/
def errBody (msg : String) : Json :=
  Json.obj [("error", Json.str msg)]

/-- `response.status(n).json({error: msg})`. -/
def errResp (status : Nat) (msg : String) : HttpResponse :=
  { status := status, body := errBody msg }

/-- The fields the proxy destructures out of `payload`; a field absent from
the request is `none` (JavaScript `undefined`). -/
structure Payload where
  messageType : Option String
  theme : Option String
  message : Option String
  imageStyle : Option String

/-- The `{action, payload}` envelope of a request body. -/
structure ReqBody where
  action : Option String
  payload : Option Payload

/-- An incoming HTTP request as the handler sees it. -/
structure Request where
  method : String
  body : Option ReqBody

/-- The process environment variables the handler reads. -/
structure Env where
  GEMINI_API_KEY : Option String
  STABLE_HORDE_API_KEY : Option String

/-! ## Stable Horde provider shapes -/

/-- The parsed body (plus `ok` flag) of the initial
`POST /api/v2/generate/async` response. -/
structure HordeInitData where
  ok : Bool
  id : Option String
  message : Json

/-- One entry of `finalData.generations`. -/
structure HordeGeneration where
  img : String

/-- The parsed body of one `GET /api/v2/generate/check/<id>` response. -/
structure HordeCheckData where
  done : Bool
  generations : List HordeGeneration

/-- The downloaded image: `ok` flag, bytes already base64-encoded
(`Buffer.from(buf).toString('base64')`), and the content-type header
(`none` when the header is absent). -/
structure ImageFetchData where
  ok : Bool
  bodyBase64 : String
  contentType : Option String

/-- Oracles for the network/platform effects the handler awaits.  Each
field maps the data the code sends (API key, prompt, poll index, URL,
text to parse) to the outcome of that call; `Except.error` is a thrown
error with its message. -/
structure ProxyWorld where
  geminiText : Option String → String → Except String String
  parseJSON : String → Except String Json
  hordeInit : String → String → Except String HordeInitData
  hordeCheck : Nat → Except String HordeCheckData
  imageFetch : String → Except String ImageFetchData

/-! ## The proxy handler (src/api/gemini-proxy.ts, deployed document) -/

/-- `const maxRetries = 20` — the poll budget of the Stable Horde loop. -/
def maxRetries : Nat := 20

/-- The `setTimeout` delay, in milliseconds, awaited before every status
poll (`await new Promise(resolve => setTimeout(resolve, 5000))`). -/
def pollDelayMs : Nat := 5000

/-- The status-poll loop: while `retries < maxRetries`, sleep `pollDelayMs`
milliseconds, fetch `generate/check/<id>`, stop with the check data once
`done`, else increment `retries`.  `remaining` is `maxRetries - retries`
so the recursion is structural.  Returns `finalData` (`none` when the
budget is exhausted without completion, `Except.error` when a poll
throws) together with the number of polls performed. -/
def pollLoop (check : Nat → Except String HordeCheckData) (retries : Nat) :
    Nat → Except String (Option HordeCheckData) × Nat
  | 0 => (Except.ok none, 0)
  | remaining + 1 =>
    match check retries with
    | Except.error e => (Except.error e, 1)
    | Except.ok c =>
      if c.done then (Except.ok (some c), 1)
      else
        let r := pollLoop check (retries + 1) remaining
        (r.1, r.2 + 1)

/-- The prompt built for the `getSuggestions` route. -/
def suggestionsPrompt (p : Payload) : String :=
  "Gere 3 sugestões de mensagens de \"" ++ tmpl p.messageType ++
    "\" com um tema \"" ++ tmpl p.theme ++
    "\". As mensagens devem ser curtas, inspiradoras, incluir emojis relevantes e adequadas para compartilhar no WhatsApp. Retorne um array JSON de strings."

/-- The prompt built for the `generateImage` route. -/
def imagePrompt (p : Payload) : String :=
  "Estilo: " ++ tmpl p.imageStyle ++
    ". Uma imagem vibrante, positiva, e inspiradora sobre \"" ++ tmpl p.message ++
    "\". O ÚNICO texto escrito na imagem deve ser \"" ++ tmpl p.messageType ++
    "\". O texto deve ser claro, legível e bem integrado ao design."

/-- The body of the handler's `try` block: envelope validation, then the
`getSuggestions` or `generateImage` route; `Except.error` is a thrown
error reaching the `catch`. -/
def handlerTry (env : Env) (w : ProxyWorld) (req : Request) : Except String HttpResponse :=
  let rb := req.body.getD { action := none, payload := none }
  if !jsTruthyStr rb.action || rb.payload.isNone then
    Except.ok (errResp 400 "Requisição inválida: 'action' e 'payload' são obrigatórios.")
  else if rb.action == some "getSuggestions" then
    if !jsTruthyStr env.GEMINI_API_KEY then
      Except.ok (errResp 500 "A chave de API do Gemini não foi configurada no servidor. Verifique as variáveis de ambiente do projeto na Vercel.")
    else
      match rb.payload with
      | none => Except.ok (errResp 400 "Requisição inválida: 'action' e 'payload' são obrigatórios.")
      | some p => do
        let text ← w.geminiText env.GEMINI_API_KEY (suggestionsPrompt p)
        let suggestions ← w.parseJSON text.trim
        Except.ok { status := 200, body := suggestions }
  else if rb.action == some "generateImage" then
    match rb.payload with
    | none => Except.ok (errResp 400 "Requisição inválida: 'action' e 'payload' são obrigatórios.")
    | some p =>
      let hordeApiKey := jsOrDefault env.STABLE_HORDE_API_KEY "0000000000"
      do
        let initialData ← w.hordeInit hordeApiKey (imagePrompt p)
        if !initialData.ok || !jsTruthyStr initialData.id then
          Except.error ("Falha ao iniciar a geração no Stable Horde: " ++
            (if initialData.message.jsTruthy then initialData.message.jsString
             else "Erro desconhecido"))
        else
          match (pollLoop w.hordeCheck 0 maxRetries).1 with
          | Except.error e => Except.error e
          | Except.ok none =>
            Except.error "A geração da imagem demorou muito ou falhou no Stable Horde."
          | Except.ok (some finalData) =>
            match finalData.generations with
            | [] => Except.error "A geração da imagem demorou muito ou falhou no Stable Horde."
            | g :: _ => do
              let imageResponse ← w.imageFetch g.img
              if !imageResponse.ok then
                Except.error "Não foi possível baixar a imagem gerada pelo Stable Horde."
              else
                let mimeType := jsOrDefault imageResponse.contentType "image/webp"
                Except.ok { status := 200, body := Json.obj [("imageUrl", Json.str ("data:" ++ mimeType ++ ";base64," ++ imageResponse.bodyBase64))] }
  else
    Except.ok (errResp 400 "Ação desconhecida.")

/-- The proxy request handler: the method check, then the try/catch wrapper
around `handlerTry`.  A thrown message containing the `SAFETY` marker is
rewritten into the 400 content-policy response; any other thrown message
becomes the 500 response embedding it. -/
def handler (env : Env) (w : ProxyWorld) (req : Request) : HttpResponse :=
  if req.method != "POST" then
    errResp 405 "Método não permitido"
  else
    match handlerTry env w req with
    | Except.ok r => r
    | Except.error errorMessage =>
      if strIncludes errorMessage "SAFETY" then
        errResp 400 "O conteúdo solicitado não pôde ser gerado devido às políticas de segurança. Tente uma mensagem diferente."
      else
        errResp 500 errorMessage

/-! ## The client service layer (geminiService) -/

/-- A server response as the client sees it after `await response.json()`:
the `ok` flag, the status code, and the parsed JSON body. -/
structure ServerResponse where
  ok : Bool
  status : Nat
  data : Json

/-- `callProxy`: POSTs `{action, payload}` to `/api/gemini-proxy` (the
network exchange is abstracted by the `ServerResponse` oracle), throws
the server's `error` field (or a generic status message) when the
response is not ok, and returns the parsed body otherwise. -/
def callProxy (resp : ServerResponse) : Except String Json :=
  let data := resp.data
  if !resp.ok then
    Except.error
      (if (data.getField "error").jsTruthy then (data.getField "error").jsString
       else "Erro no servidor (código: " ++ toString resp.status ++ ")")
  else
    Except.ok data

/-- `getGreetingSuggestions`: calls the proxy and throws unless the body is
a JSON array (`Array.isArray`). -/
def getGreetingSuggestions (resp : ServerResponse) : Except String Json :=
  match callProxy resp with
  | Except.error e => Except.error e
  | Except.ok suggestions =>
    if !suggestions.isArr then
      Except.error "A resposta do servidor para sugestões não estava no formato esperado."
    else
      Except.ok suggestions

/-- `generateImageFromMessage`: calls the proxy and throws unless the body
has a string `imageUrl` field. -/
def generateImageFromMessage (resp : ServerResponse) : Except String String :=
  match callProxy resp with
  | Except.error e => Except.error e
  | Except.ok data =>
    match data.getField "imageUrl" with
    | Json.str imageUrl => Except.ok imageUrl
    | _ => Except.error "A resposta do servidor para a imagem não continha uma URL válida."

/-! ## The client form controller (src/App.tsx) -/

/-- A contact of the in-memory recipient list. -/
structure Contact where
  id : String
  name : String
  phone : String
deriving DecidableEq

/-- The pieces of App component state the handlers below touch. -/
structure AppState where
  contacts : List Contact
  suggestions : List String
  message : String
  generatedImage : Option String
  error : Option String
  isLoadingSuggestions : Bool
  isLoadingImage : Bool
deriving DecidableEq

/-- The state updates `handleGetSuggestions` performs before awaiting
`getGreetingSuggestions`: start the spinner, clear the error banner,
clear the generated image. -/
def suggestionsPreFetch (s : AppState) : AppState :=
  { s with isLoadingSuggestions := true, error := none, generatedImage := none }

/-- `handleGetSuggestions`, with the awaited `getGreetingSuggestions`
outcome passed as `r` (the new suggestion list, or the thrown message). -/
def handleGetSuggestions (s : AppState) (r : Except String (List String)) : AppState :=
  let s0 := suggestionsPreFetch s
  let s1 :=
    match r with
    | Except.ok newSuggestions =>
      let s0 := { s0 with suggestions := newSuggestions }
      if newSuggestions.length > 0 then
        { s0 with message := newSuggestions.headD "" }
      else
        { s0 with message := "" }
    | Except.error e => { s0 with error := some e }
  { s1 with isLoadingSuggestions := false }

/-- `handleGenerateImage`, with the awaited `generateImageFromMessage`
outcome passed as `r`; the second component records whether that network
call was made at all (the empty-message guard returns before it). -/
def handleGenerateImage (s : AppState) (r : Except String String) : AppState × Bool :=
  if s.message == "" then
    ({ s with error := some "Por favor, selecione ou escreva uma mensagem primeiro." }, false)
  else
    let s1 := { s with isLoadingImage := true, error := none }
    let s2 :=
      match r with
      | Except.ok image => { s1 with generatedImage := some image }
      | Except.error e => { s1 with error := some e }
    ({ s2 with isLoadingImage := false }, true)

/-- `handleAddContact` restricted to its effect on the contact list: when
both input fields are truthy (non-empty), append a contact with a fresh
`Date.now()` id. -/
def handleAddContact (contacts : List Contact) (newId newContactName newContactPhone : String) :
    List Contact :=
  if newContactName != "" && newContactPhone != "" then
    contacts ++ [{ id := newId, name := newContactName, phone := newContactPhone }]
  else
    contacts

/-- One device contact as consumed by the import mapping: `name[0]` and
`tel[0]` of the Contact Picker result. -/
structure DeviceContact where
  name0 : String
  tel0 : String
deriving DecidableEq

/-- `handleImportContacts` restricted to its effect on the contact list:
map the picked device contacts into `Contact`s, drop those whose phone is
already present, and append the rest. -/
def handleImportContacts (prev : List Contact) (deviceContacts : List DeviceContact) :
    List Contact :=
  if deviceContacts.length > 0 then
    let newContacts := deviceContacts.map fun c =>
      ({ id := c.tel0 ++ c.name0, name := c.name0, phone := c.tel0 } : Contact)
    let existingPhones := prev.map fun c => c.phone
    let uniqueNewContacts := newContacts.filter fun c => !(existingPhones.contains c.phone)
    prev ++ uniqueNewContacts
  else
    prev

/-- `handleRemoveContact`: keep every contact whose id differs. -/
def handleRemoveContact (contacts : List Contact) (id : String) : List Contact :=
  contacts.filter fun c => c.id != id

/-! ## Simp support -/

@[simp] theorem bindOk {ε α β : Type} (a : α) (f : α → Except ε β) :
    (Except.ok a : Except ε α) >>= f = f a := rfl

@[simp] theorem jsTruthyStr_none : jsTruthyStr none = false := rfl

@[simp] theorem jsTruthyStr_some (s : String) : jsTruthyStr (some s) = (s != "") := rfl

/-! ## Poll-loop lemmas -/

/-- The poll loop performs at most `rem` polls. -/
theorem pollLoop_polls_le (check : Nat → Except String HordeCheckData) :
    ∀ (rem retries : Nat), (pollLoop check retries rem).2 ≤ rem := by
  intro rem
  induction rem with
  | zero => intro r; simp [pollLoop]
  | succ n ih =>
    intro r
    simp only [pollLoop]
    cases hc : check r with
    | error e => simp
    | ok c =>
      cases hd : c.done with
      | true => simp [hd]
      | false => simpa [hd] using Nat.succ_le_succ (ih (r + 1))

/-- When every poll inside the budget answers `done: false`, the loop
exhausts the whole budget and returns no final data. -/
theorem pollLoop_timeout (check : Nat → Except String HordeCheckData) :
    ∀ (rem retries : Nat),
      (∀ i, i < rem → ∃ c, check (retries + i) = Except.ok c ∧ c.done = false) →
      pollLoop check retries rem = (Except.ok none, rem) := by
  intro rem
  induction rem with
  | zero => intro r _; rfl
  | succ n ih =>
    intro r h
    obtain ⟨c, hc, hd⟩ := h 0 (Nat.succ_pos n)
    rw [Nat.add_zero] at hc
    have tail := ih (r + 1) (fun i hi => by
      have hswap : r + 1 + i = r + (i + 1) := by omega
      rw [hswap]
      exact h (i + 1) (Nat.succ_lt_succ hi))
    simp [pollLoop, hc, hd, tail]

/-! ## Claim theorems -/

/-- C1: for every valid messageType/theme payload, when the text provider
call succeeds and its (trimmed) text parses as a JSON array of strings,
the `getSuggestions` route returns status 200 with exactly that array,
and the handler throws nothing (`handlerTry` is `ok`). -/
theorem getSuggestions_wellformed_200 (env : Env) (w : ProxyWorld) (p : Payload)
    (t : String) (ss : List String)
    (hkey : jsTruthyStr env.GEMINI_API_KEY = true)
    (htext : w.geminiText env.GEMINI_API_KEY (suggestionsPrompt p) = Except.ok t)
    (hparse : w.parseJSON t.trim = Except.ok (Json.arr (ss.map Json.str))) :
    handlerTry env w { method := "POST", body := some { action := some "getSuggestions", payload := some p } } = Except.ok { status := 200, body := Json.arr (ss.map Json.str) } ∧
    handler env w { method := "POST", body := some { action := some "getSuggestions", payload := some p } } = { status := 200, body := Json.arr (ss.map Json.str) } := by
  have h1 : handlerTry env w { method := "POST", body := some { action := some "getSuggestions", payload := some p } } = Except.ok { status := 200, body := Json.arr (ss.map Json.str) } := by
    simp [handlerTry, hkey, htext, hparse, bindOk]
  exact ⟨h1, by simp [handler, h1]⟩

/-- C1 witness: a concrete run of the confirmed theorem. -/
theorem getSuggestions_wellformed_200_witness :
    handler { GEMINI_API_KEY := some "k1234567890", STABLE_HORDE_API_KEY := none }
      { geminiText := fun _ _ => Except.ok "[\"Bom dia!\"]",
        parseJSON := fun _ => Except.ok (Json.arr [Json.str "Bom dia!"]),
        hordeInit := fun _ _ => Except.error "unused",
        hordeCheck := fun _ => Except.error "unused",
        imageFetch := fun _ => Except.error "unused" }
      { method := "POST", body := some { action := some "getSuggestions", payload := some { messageType := some "Bom dia", theme := some "Genérico", message := none, imageStyle := none } } } = { status := 200, body := Json.arr ([Json.str "Bom dia!"]) } := by
  have h := getSuggestions_wellformed_200
    { GEMINI_API_KEY := some "k1234567890", STABLE_HORDE_API_KEY := none }
    { geminiText := fun _ _ => Except.ok "[\"Bom dia!\"]",
      parseJSON := fun _ => Except.ok (Json.arr [Json.str "Bom dia!"]),
      hordeInit := fun _ _ => Except.error "unused",
      hordeCheck := fun _ => Except.error "unused",
      imageFetch := fun _ => Except.error "unused" }
    { messageType := some "Bom dia", theme := some "Genérico", message := none, imageStyle := none }
    "[\"Bom dia!\"]" ["Bom dia!"] (by decide) rfl rfl
  exact h.2

/-- C2: the Stable Horde status-poll loop performs at most `maxRetries = 20`
polls, each preceded by a fixed `pollDelayMs = 5000` millisecond sleep,
and when the job never reports done inside that budget the route throws
the timeout message, which the catch turns into a 500 response. -/
theorem generateImage_poll_bounded_timeout (env : Env) (w : ProxyWorld) (p : Payload)
    (init : HordeInitData)
    (hinit : w.hordeInit (jsOrDefault env.STABLE_HORDE_API_KEY "0000000000") (imagePrompt p) = Except.ok init)
    (hok : init.ok = true)
    (hid : jsTruthyStr init.id = true)
    (hnotdone : ∀ i, i < maxRetries → ∃ c, w.hordeCheck i = Except.ok c ∧ c.done = false) :
    maxRetries = 20 ∧ pollDelayMs = 5000 ∧
    (∀ (check : Nat → Except String HordeCheckData) (retries rem : Nat), (pollLoop check retries rem).2 ≤ rem) ∧
    (pollLoop w.hordeCheck 0 maxRetries).2 = maxRetries ∧
    handler env w { method := "POST", body := some { action := some "generateImage", payload := some p } } = errResp 500 "A geração da imagem demorou muito ou falhou no Stable Horde." := by
  have hpoll : pollLoop w.hordeCheck 0 maxRetries = (Except.ok none, maxRetries) := by
    refine pollLoop_timeout w.hordeCheck maxRetries 0 (fun i hi => ?_)
    rw [Nat.zero_add]
    exact hnotdone i hi
  have h1 : handlerTry env w { method := "POST", body := some { action := some "generateImage", payload := some p } } = Except.error "A geração da imagem demorou muito ou falhou no Stable Horde." := by
    simp [handlerTry, hinit, hok, hid, hpoll, bindOk]
  refine ⟨rfl, rfl, fun c r m => pollLoop_polls_le c m r, by rw [hpoll], ?_⟩
  have hsafe : strIncludes "A geração da imagem demorou muito ou falhou no Stable Horde." "SAFETY" = false := by decide
  simp [handler, h1, hsafe]

/-- C2 witness: a concrete run of the confirmed theorem. -/
theorem generateImage_poll_bounded_timeout_witness :
    handler { GEMINI_API_KEY := none, STABLE_HORDE_API_KEY := none }
      { geminiText := fun _ _ => Except.error "unused",
        parseJSON := fun _ => Except.error "unused",
        hordeInit := fun _ _ => Except.ok { ok := true, id := some "job1", message := Json.null },
        hordeCheck := fun _ => Except.ok { done := false, generations := [] },
        imageFetch := fun _ => Except.error "unused" }
      { method := "POST", body := some { action := some "generateImage", payload := some { messageType := some "Bom dia", theme := some "Genérico", message := some "Oi", imageStyle := some "Realista" } } } = errResp 500 "A geração da imagem demorou muito ou falhou no Stable Horde." := by
  have h := generateImage_poll_bounded_timeout
    { GEMINI_API_KEY := none, STABLE_HORDE_API_KEY := none }
    { geminiText := fun _ _ => Except.error "unused",
      parseJSON := fun _ => Except.error "unused",
      hordeInit := fun _ _ => Except.ok { ok := true, id := some "job1", message := Json.null },
      hordeCheck := fun _ => Except.ok { done := false, generations := [] },
      imageFetch := fun _ => Except.error "unused" }
    { messageType := some "Bom dia", theme := some "Genérico", message := some "Oi", imageStyle := some "Realista" }
    { ok := true, id := some "job1", message := Json.null }
    rfl rfl (by decide)
    (fun i _ => ⟨{ done := false, generations := [] }, rfl, rfl⟩)
  exact h.2.2.2.2

/-- C3: a thrown message containing the SAFETY marker is rewritten by the
catch into the 400 content-policy response, and any other thrown message
becomes the 500 response whose body embeds that exact message. -/
theorem handler_error_normalisation (env : Env) (w : ProxyWorld) (req : Request) (e : String)
    (hm : req.method = "POST")
    (herr : handlerTry env w req = Except.error e) :
    (strIncludes e "SAFETY" = true → handler env w req = errResp 400 "O conteúdo solicitado não pôde ser gerado devido às políticas de segurança. Tente uma mensagem diferente.") ∧
    (strIncludes e "SAFETY" = false → handler env w req = errResp 500 e) := by
  constructor <;> intro h <;> simp [handler, hm, herr, h]

/-- C3 witness: a SAFETY-marked provider rejection yields the 400
content-policy response at a concrete request. -/
theorem handler_error_normalisation_witness :
    handler { GEMINI_API_KEY := some "k1234567890", STABLE_HORDE_API_KEY := none }
      { geminiText := fun _ _ => Except.error "blocked: SAFETY filter",
        parseJSON := fun _ => Except.error "unused",
        hordeInit := fun _ _ => Except.error "unused",
        hordeCheck := fun _ => Except.error "unused",
        imageFetch := fun _ => Except.error "unused" }
      { method := "POST", body := some { action := some "getSuggestions", payload := some { messageType := some "Bom dia", theme := some "Genérico", message := none, imageStyle := none } } } = errResp 400 "O conteúdo solicitado não pôde ser gerado devido às políticas de segurança. Tente uma mensagem diferente." := by
  have h := handler_error_normalisation
    { GEMINI_API_KEY := some "k1234567890", STABLE_HORDE_API_KEY := none }
    { geminiText := fun _ _ => Except.error "blocked: SAFETY filter",
      parseJSON := fun _ => Except.error "unused",
      hordeInit := fun _ _ => Except.error "unused",
      hordeCheck := fun _ => Except.error "unused",
      imageFetch := fun _ => Except.error "unused" }
    { method := "POST", body := some { action := some "getSuggestions", payload := some { messageType := some "Bom dia", theme := some "Genérico", message := none, imageStyle := none } } }
    "blocked: SAFETY filter" rfl rfl
  exact h.1 (by decide)

/-- C4 counterexample: manual add performs no phone check, so adding a
second contact with the phone of an existing one inserts a duplicate —
the claimed invariant fails after this two-operation sequence. -/
theorem addContact_duplicate_phone_cex :
    ((handleAddContact (handleAddContact [] "id1" "Alice" "5511999") "id2" "Bob" "5511999").map fun c => c.phone) = ["5511999", "5511999"] ∧
    ¬ ((handleAddContact (handleAddContact [] "id1" "Alice" "5511999") "id2" "Bob" "5511999").map fun c => c.phone).Nodup := by
  exact ⟨rfl, by decide⟩

/-- C4 amended: device-contact import drops every picked contact whose
phone is already present, so import (of a batch with pairwise-distinct
phones) and removal preserve phone uniqueness; manual add does not check
phones and can violate it (see the counterexample). -/
theorem import_remove_preserve_phone_unique (contacts : List Contact)
    (device : List DeviceContact) (cid : String)
    (hc : (contacts.map fun c => c.phone).Nodup)
    (hd : (device.map fun c => c.tel0).Nodup) :
    ((handleImportContacts contacts device).map fun c => c.phone).Nodup ∧
    ((handleRemoveContact contacts cid).map fun c => c.phone).Nodup := by
  constructor
  · unfold handleImportContacts
    split
    · rw [List.map_append]
      have hphones : ((device.map fun c =>
          ({ id := c.tel0 ++ c.name0, name := c.name0, phone := c.tel0 } : Contact)).map fun c => c.phone) =
          device.map fun c => c.tel0 := by
        rw [List.map_map]; rfl
      refine List.Nodup.append hc ?_ ?_
      · refine List.Nodup.sublist ?_ (hphones ▸ hd)
        exact (List.filter_sublist _).map _
      · intro a ha hb
        simp only [List.mem_map] at hb
        obtain ⟨c, hcmem, hcphone⟩ := hb
        rw [List.mem_filter] at hcmem
        have hcontains : ((contacts.map fun c => c.phone).contains c.phone) = false := by
          simpa using hcmem.2
        rw [hcphone] at hcontains
        simp [ha] at hcontains
    · exact hc
  · exact List.Nodup.sublist ((List.filter_sublist _).map _) hc

/-- C4 amended witness: a concrete import against an existing contact with
a shared phone inserts nothing and keeps phones unique. -/
theorem import_remove_preserve_phone_unique_witness :
    (([⟨"i1", "Ana", "111"⟩] : List Contact).map fun c => c.phone).Nodup ∧
    (([⟨"Bo", "111"⟩, ⟨"Ca", "222"⟩] : List DeviceContact).map fun c => c.tel0).Nodup ∧
    ((handleImportContacts [⟨"i1", "Ana", "111"⟩] [⟨"Bo", "111"⟩, ⟨"Ca", "222"⟩]).map fun c => c.phone).Nodup := by
  refine ⟨by decide, by decide, ?_⟩
  exact (import_remove_preserve_phone_unique [⟨"i1", "Ana", "111"⟩] [⟨"Bo", "111"⟩, ⟨"Ca", "222"⟩] "i1" (by decide) (by decide)).1

/-- C5 counterexample: with no image-generation key in the environment the
`generateImage` route does not fail with a configuration error — it
proceeds to call Stable Horde with the anonymous default key
`0000000000` (the oracle below only answers to that key) and returns
status 200. -/
theorem generateImage_missing_key_cex :
    handler { GEMINI_API_KEY := none, STABLE_HORDE_API_KEY := none }
      { geminiText := fun _ _ => Except.error "unused",
        parseJSON := fun _ => Except.error "unused",
        hordeInit := fun key _ => if key == "0000000000" then Except.ok { ok := true, id := some "job1", message := Json.null } else Except.error "bad key",
        hordeCheck := fun _ => Except.ok { done := true, generations := [{ img := "https://horde/img1" }] },
        imageFetch := fun _ => Except.ok { ok := true, bodyBase64 := "QUJD", contentType := some "image/webp" } }
      { method := "POST", body := some { action := some "generateImage", payload := some { messageType := some "Bom dia", theme := some "Genérico", message := some "Oi", imageStyle := some "Realista" } } } = { status := 200, body := Json.obj [("imageUrl", Json.str "data:image/webp;base64,QUJD")] } := by
  rfl

/-- C5 amended: only the `getSuggestions` route checks its credential —
when the Gemini key is absent or empty it answers the fixed 500
configuration error, independent of the provider world (so no provider
call is made); the `generateImage` route never fails on a missing
Stable Horde key but substitutes the anonymous default key
`0000000000`. -/
theorem credential_check_policy (env : Env) (w w2 : ProxyWorld) (p : Payload)
    (hkey : jsTruthyStr env.GEMINI_API_KEY = false) :
    handler env w { method := "POST", body := some { action := some "getSuggestions", payload := some p } } = errResp 500 "A chave de API do Gemini não foi configurada no servidor. Verifique as variáveis de ambiente do projeto na Vercel." ∧
    handler env w { method := "POST", body := some { action := some "getSuggestions", payload := some p } } = handler env w2 { method := "POST", body := some { action := some "getSuggestions", payload := some p } } ∧
    (env.STABLE_HORDE_API_KEY = none → jsOrDefault env.STABLE_HORDE_API_KEY "0000000000" = "0000000000") := by
  have h1 : ∀ w3 : ProxyWorld, handlerTry env w3 { method := "POST", body := some { action := some "getSuggestions", payload := some p } } = Except.ok (errResp 500 "A chave de API do Gemini não foi configurada no servidor. Verifique as variáveis de ambiente do projeto na Vercel.") := by
    intro w3
    simp [handlerTry, hkey]
  have h2 : handler env w { method := "POST", body := some { action := some "getSuggestions", payload := some p } } = errResp 500 "A chave de API do Gemini não foi configurada no servidor. Verifique as variáveis de ambiente do projeto na Vercel." := by
    simp [handler, h1 w]
  refine ⟨h2, ?_, fun h => by rw [h]; rfl⟩
  rw [h2]
  simp [handler, h1 w2]

/-- C5 amended witness: a concrete run of the amended theorem. -/
theorem credential_check_policy_witness :
    handler { GEMINI_API_KEY := none, STABLE_HORDE_API_KEY := none }
      { geminiText := fun _ _ => Except.ok "ignored",
        parseJSON := fun _ => Except.ok Json.null,
        hordeInit := fun _ _ => Except.error "unused",
        hordeCheck := fun _ => Except.error "unused",
        imageFetch := fun _ => Except.error "unused" }
      { method := "POST", body := some { action := some "getSuggestions", payload := some { messageType := some "Bom dia", theme := some "Genérico", message := none, imageStyle := none } } } = errResp 500 "A chave de API do Gemini não foi configurada no servidor. Verifique as variáveis de ambiente do projeto na Vercel." := by
  exact (credential_check_policy { GEMINI_API_KEY := none, STABLE_HORDE_API_KEY := none }
    { geminiText := fun _ _ => Except.ok "ignored",
      parseJSON := fun _ => Except.ok Json.null,
      hordeInit := fun _ _ => Except.error "unused",
      hordeCheck := fun _ => Except.error "unused",
      imageFetch := fun _ => Except.error "unused" }
    { geminiText := fun _ _ => Except.ok "ignored",
      parseJSON := fun _ => Except.ok Json.null,
      hordeInit := fun _ _ => Except.error "unused",
      hordeCheck := fun _ => Except.error "unused",
      imageFetch := fun _ => Except.error "unused" }
    { messageType := some "Bom dia", theme := some "Genérico", message := none, imageStyle := none }
    rfl).1

/-- C6: with an empty draft message, `handleGenerateImage` only sets the
validation error and reports no network call; with a non-empty message
the network call proceeds. -/
theorem handleGenerateImage_empty_message_guard (s : AppState) (r : Except String String) :
    (s.message = "" → handleGenerateImage s r = ({ s with error := some "Por favor, selecione ou escreva uma mensagem primeiro." }, false)) ∧
    (s.message ≠ "" → (handleGenerateImage s r).2 = true) := by
  constructor
  · intro h
    simp [handleGenerateImage, h]
  · intro h
    cases r <;> simp [handleGenerateImage, h]

/-- C6 witness: a concrete empty-message rejection. -/
theorem handleGenerateImage_empty_message_guard_witness :
    handleGenerateImage ⟨[], [], "", none, none, false, false⟩ (Except.ok "img") =
      (⟨[], [], "", none, some "Por favor, selecione ou escreva uma mensagem primeiro.", false, false⟩, false) := by
  exact (handleGenerateImage_empty_message_guard ⟨[], [], "", none, none, false, false⟩ (Except.ok "img")).1 rfl

/-- C7: whenever the server body is not a JSON array,
`getGreetingSuggestions` throws; whenever it returns, the returned value
is a JSON array. -/
theorem getGreetingSuggestions_array_or_throw (resp : ServerResponse) :
    (resp.data.isArr = false → ∃ e, getGreetingSuggestions resp = Except.error e) ∧
    (∀ v, getGreetingSuggestions resp = Except.ok v → v.isArr = true) := by
  constructor
  · intro h
    cases hok : resp.ok with
    | false =>
      exact ⟨(if (resp.data.getField "error").jsTruthy then (resp.data.getField "error").jsString
          else "Erro no servidor (código: " ++ toString resp.status ++ ")"),
        by simp [getGreetingSuggestions, callProxy, hok]⟩
    | true =>
      exact ⟨"A resposta do servidor para sugestões não estava no formato esperado.",
        by simp [getGreetingSuggestions, callProxy, hok, h]⟩
  · intro v hv
    cases hok : resp.ok with
    | false => simp [getGreetingSuggestions, callProxy, hok] at hv
    | true =>
      cases ha : resp.data.isArr with
      | false => simp [getGreetingSuggestions, callProxy, hok, ha] at hv
      | true =>
        simp [getGreetingSuggestions, callProxy, hok, ha] at hv
        rw [← hv]
        exact ha

/-- C7 witness: a concrete non-array body makes the client throw. -/
theorem getGreetingSuggestions_array_or_throw_witness :
    ∃ e, getGreetingSuggestions { ok := true, status := 200, data := Json.obj [] } = Except.error e := by
  exact (getGreetingSuggestions_array_or_throw { ok := true, status := 200, data := Json.obj [] }).1 rfl

/-- C8: a POST whose body is missing `action` or missing `payload` gets the
400 validation response, independent of the provider world (so no
provider call is made). -/
theorem handler_missing_action_payload_400 (env : Env) (w w2 : ProxyWorld) (req : Request)
    (hm : req.method = "POST")
    (h : (req.body.getD { action := none, payload := none }).action = none ∨
         (req.body.getD { action := none, payload := none }).payload = none) :
    handler env w req = errResp 400 "Requisição inválida: 'action' e 'payload' são obrigatórios." ∧
    handler env w req = handler env w2 req := by
  have h1 : ∀ w3 : ProxyWorld, handlerTry env w3 req = Except.ok (errResp 400 "Requisição inválida: 'action' e 'payload' são obrigatórios.") := by
    intro w3
    unfold handlerTry
    rcases h with h | h
    · simp [h]
    · simp [h]
  have h2 : handler env w req = errResp 400 "Requisição inválida: 'action' e 'payload' são obrigatórios." := by
    simp [handler, hm, h1 w]
  refine ⟨h2, ?_⟩
  rw [h2]
  simp [handler, hm, h1 w2]

/-- C8 witness: a concrete POST with an empty body gets the 400 response. -/
theorem handler_missing_action_payload_400_witness :
    handler { GEMINI_API_KEY := some "k", STABLE_HORDE_API_KEY := some "h" }
      { geminiText := fun _ _ => Except.ok "ignored",
        parseJSON := fun _ => Except.ok Json.null,
        hordeInit := fun _ _ => Except.error "unused",
        hordeCheck := fun _ => Except.error "unused",
        imageFetch := fun _ => Except.error "unused" }
      { method := "POST", body := none } = errResp 400 "Requisição inválida: 'action' e 'payload' são obrigatórios." := by
  exact (handler_missing_action_payload_400 { GEMINI_API_KEY := some "k", STABLE_HORDE_API_KEY := some "h" }
    { geminiText := fun _ _ => Except.ok "ignored",
      parseJSON := fun _ => Except.ok Json.null,
      hordeInit := fun _ _ => Except.error "unused",
      hordeCheck := fun _ => Except.error "unused",
      imageFetch := fun _ => Except.error "unused" }
    { geminiText := fun _ _ => Except.ok "ignored",
      parseJSON := fun _ => Except.ok Json.null,
      hordeInit := fun _ _ => Except.error "unused",
      hordeCheck := fun _ => Except.error "unused",
      imageFetch := fun _ => Except.error "unused" }
    { method := "POST", body := none } rfl (Or.inl rfl)).1

/-- C9: when the image call throws, `handleGenerateImage` leaves the
generated image (and every other display field) unchanged and only sets
the error banner to the thrown message. -/
theorem handleGenerateImage_error_atomic (s : AppState) (e : String)
    (hmsg : s.message ≠ "") :
    ((handleGenerateImage s (Except.error e)).1).generatedImage = s.generatedImage ∧
    ((handleGenerateImage s (Except.error e)).1).error = some e ∧
    ((handleGenerateImage s (Except.error e)).1).contacts = s.contacts ∧
    ((handleGenerateImage s (Except.error e)).1).suggestions = s.suggestions ∧
    ((handleGenerateImage s (Except.error e)).1).message = s.message := by
  simp [handleGenerateImage, hmsg]

/-- C9 witness: a failing image call keeps a previously generated image. -/
theorem handleGenerateImage_error_atomic_witness :
    ((handleGenerateImage ⟨[], [], "Oi", some "prev", none, false, false⟩ (Except.error "boom")).1).generatedImage = some "prev" := by
  exact (handleGenerateImage_error_atomic ⟨[], [], "Oi", some "prev", none, false, false⟩ "boom" (by decide)).1

/-- C10: `handleGetSuggestions` clears the generated image before the
network call, and whatever the fetch outcome, the state it leaves behind
has no generated image. -/
theorem handleGetSuggestions_clears_image (s : AppState) (r : Except String (List String)) :
    (suggestionsPreFetch s).generatedImage = none ∧
    (handleGetSuggestions s r).generatedImage = none := by
  refine ⟨rfl, ?_⟩
  cases r with
  | ok l => by_cases hl : l.length > 0 <;> simp [handleGetSuggestions, suggestionsPreFetch, hl]
  | error e => rfl

end GoodVibes
